import Mathlib

/-!
# Game.jsx: the duel component, embedded

A shallow embedding of `src/components/Game.jsx`: the health-bar transform
(`calculateTransform`), the view selection of `Game` (the chain of early
returns), the lobby handlers (`handleJoinRoom`, `handleCreateRoom`,
`handleShoot`) and the auto-hide effect of the bullet reveal.

Conventions.
* The hook `useGameState` is outside the component: its `gameState` and
  `playerId` are inputs of `render`, its functions (`joinRoom`, `createRoom`)
  are parameters of the handlers.
* JavaScript numbers are exact rationals here (healths and counters are
  integers); the two divisions of `calculateTransform` are exact.
* `String.prototype.trim` uses the ECMAScript white-space set;
  `String.prototype.toUpperCase` is modelled on Basic Latin, the alphabet of
  room codes (a to z are mapped to A to Z, every other code point is kept).
-/

namespace Game

/-! ## Values handed over by the hook -/

/-- An identifier as the hook hands it over: a string, or `null` / `undefined`
while unset. Strict equality (`===`) on these values is structural equality. -/
inductive JSId where
  | undefined
  | null
  | str (s : String)
  deriving DecidableEq, Repr

/-- The most recent shot record (`room.last_action`); the component only passes
it on to the animation. -/
structure Action where
  actor : JSId
  target : String
  outcome : String
  deriving DecidableEq, Repr

/-- The room object of the game state. -/
structure Room where
  room_id : JSId
  player1_id : JSId
  player2_id : JSId
  last_action : Option Action
  deriving DecidableEq, Repr

/-- The object `gameState.playerHealth`. -/
structure PlayerHealth where
  player1 : Int
  player2 : Int
  deriving DecidableEq, Repr

/-- The object `gameState.bulletComposition`. -/
structure BulletComposition where
  real : Int
  fake : Int
  deriving DecidableEq, Repr

/-- One element of `gameState.bullets`. -/
inductive Bullet where
  | real
  | fake
  deriving DecidableEq, Repr

/-- The `gameState` object of `useGameState`, with the fields the component reads.
`room` and `bulletComposition` are `none` when falsy. -/
structure GameState where
  room : Option Room
  gameStatus : String
  playerHealth : PlayerHealth
  currentTurn : JSId
  showBullets : Bool
  bulletComposition : Option BulletComposition
  roundNumber : Int
  bullets : List Bullet
  currentBulletIndex : Int
  deriving DecidableEq, Repr

/-- The three `useState` cells of `Game`. -/
structure Local where
  roomInput : String
  currentRoom : String
  lastAction : Option Action
  deriving DecidableEq, Repr

/-! ## HealthDisplay -/

/-- The CSS value `translateX(p%)` (`minus = false`) or `translateX(-p%)`
(`minus = true`), as the template string of `calculateTransform` writes it. -/
structure Transform where
  minus : Bool
  percent : ℚ
  deriving DecidableEq

/-- The function `calculateTransform` of `HealthDisplay`. -/
def calculateTransform (currentHealth : Int) : Transform :=
  let maxHealth : Int := 3
  if currentHealth = maxHealth then
    { minus := false, percent := 0 }
  else if currentHealth = 0 then
    { minus := true, percent := 100 }
  else
    let percentage : ℚ := (((maxHealth - currentHealth : Int) : ℚ) / (maxHealth : ℚ)) * 100
    { minus := true, percent := percentage }

/-- What `HealthDisplay` renders: the two fill transforms and the two numbers. -/
structure HealthDisplayView where
  myHealthBarStyle : Transform
  oppHealthBarStyle : Transform
  myHealthText : Int
  opponentHealthText : Int
  deriving DecidableEq

/-- The component `HealthDisplay`. -/
def HealthDisplay (myHealth opponentHealth : Int) : HealthDisplayView :=
  { myHealthBarStyle := calculateTransform myHealth
    oppHealthBarStyle := calculateTransform opponentHealth
    myHealthText := myHealth
    opponentHealthText := opponentHealth }

/-! ## Handlers and views -/

/-- A call the component makes on the hook. -/
inductive HookCall where
  | createRoom
  | joinRoom (roomId : String)
  | shoot (target : String)
  | hideBullets
  deriving DecidableEq, Repr

/-- What an `onClick` of the component is bound to. -/
inductive Handler where
  | handleCreateRoom
  | handleJoinRoom
  | handleShoot (target : String)
  | reloadPage
  deriving DecidableEq, Repr

/-- A rendered button. -/
structure Button where
  label : String
  onClick : Handler
  deriving DecidableEq, Repr

/-- The handler `handleShoot`: it forwards its argument to the hook's `shoot`
(the result is only logged). -/
def handleShoot (target : String) : List HookCall :=
  [HookCall.shoot target]

/-- The targets a handler forwards to the hook's `shoot` when it is invoked. -/
def Handler.shootTargets : Handler → List String
  | Handler.handleShoot target =>
      (Game.handleShoot target).filterMap fun c =>
        match c with
        | HookCall.shoot t => some t
        | _ => none
  | _ => []

/-- The closed set of screens `Game` returns. Every field is a piece of the
rendered output that depends on state. -/
inductive View where
  | lobby (roomInputValue : String) (buttons : List Button)
  | waiting (roomText : String)
  | gameOver (headline : String) (yourHealth opponentHealth roundsPlayed : Int)
      (buttons : List Button)
  | bulletReveal (heading : String) (newRoundText : Bool) (realRocks fakeRocks : Int)
  | game (roomText : String) (round : Int) (rocksRemaining : Int)
      (health : HealthDisplayView) (animationLastAction : Option Action)
      (animationPlayerId : JSId) (turnIndicator : String) (buttons : List Button)
  deriving DecidableEq

/-- The name of a screen. -/
inductive Screen where
  | lobby
  | waiting
  | gameOver
  | bulletReveal
  | activePlay
  deriving DecidableEq, Repr

/-- Which screen a view is. -/
def View.screen : View → Screen
  | View.lobby _ _ => Screen.lobby
  | View.waiting _ => Screen.waiting
  | View.gameOver _ _ _ _ _ => Screen.gameOver
  | View.bulletReveal _ _ _ _ => Screen.bulletReveal
  | View.game _ _ _ _ _ _ _ _ => Screen.activePlay

/-- The buttons of a view. -/
def View.buttons : View → List Button
  | View.lobby _ bs => bs
  | View.waiting _ => []
  | View.gameOver _ _ _ _ bs => bs
  | View.bulletReveal _ _ _ _ => []
  | View.game _ _ _ _ _ _ _ bs => bs

/-- Every target some button of the view forwards to the hook's `shoot`. -/
def View.shootTargets (v : View) : List String :=
  v.buttons.flatMap fun b => b.onClick.shootTargets

/-- The expression `gameState.room?.player1_id`. -/
def player1IdOf (room : Option Room) : JSId :=
  match room with
  | some r => r.player1_id
  | none => JSId.undefined

/-- The constant `isMyTurn` of `Game`. -/
def isMyTurn (gameState : GameState) (playerId : JSId) : Bool :=
  decide (gameState.currentTurn = playerId)

/-- The constant `isPlayer1` of `Game`. -/
def isPlayer1 (gameState : GameState) (playerId : JSId) : Bool :=
  decide (playerId = player1IdOf gameState.room)

/-- The constant `opponentHealth` of `Game`. -/
def opponentHealth (gameState : GameState) (playerId : JSId) : Int :=
  if isPlayer1 gameState playerId then gameState.playerHealth.player2
  else gameState.playerHealth.player1

/-- The constant `myHealth` of `Game`. -/
def myHealth (gameState : GameState) (playerId : JSId) : Int :=
  if isPlayer1 gameState playerId then gameState.playerHealth.player1
  else gameState.playerHealth.player2

/-- The constant `winner` of the finished branch. -/
def winner (gameState : GameState) : String :=
  if gameState.playerHealth.player1 ≤ 0 then "Player 2" else "Player 1"

/-- The constant `iWon` of the finished branch. -/
def iWon (gameState : GameState) (playerId : JSId) : Bool :=
  (decide (winner gameState = "Player 1") && isPlayer1 gameState playerId)
    || (decide (winner gameState = "Player 2") && !isPlayer1 gameState playerId)

/-- The condition of the bullet-reveal branch and of the auto-hide effect:
`gameState.showBullets && gameState.bulletComposition`. -/
def revealCondition (gameState : GameState) : Bool :=
  gameState.showBullets && gameState.bulletComposition.isSome

/-- The body of `Game` after its hooks: the chain of early returns. -/
def render (gameState : GameState) (playerId : JSId) (st : Local) : View :=
  match gameState.room with
  | none =>
      View.lobby st.roomInput
        [ { label := "Create New Room", onClick := Handler.handleCreateRoom },
          { label := "Join Room", onClick := Handler.handleJoinRoom } ]
  | some _ =>
    if gameState.gameStatus = "waiting" then
      View.waiting st.currentRoom
    else if gameState.gameStatus = "finished" then
      View.gameOver (if iWon gameState playerId then "You Won!" else "You Lost!")
        (myHealth gameState playerId) (opponentHealth gameState playerId)
        gameState.roundNumber
        [ { label := "Play Again", onClick := Handler.reloadPage } ]
    else
      match gameState.showBullets, gameState.bulletComposition with
      | true, some composition =>
        let isNewRound := decide (gameState.roundNumber > 1)
        View.bulletReveal
          (if isNewRound then "Round " ++ toString gameState.roundNumber ++ "!"
            else "Round Starting!")
          isNewRound composition.real composition.fake
      | _, _ =>
        View.game st.currentRoom gameState.roundNumber
          ((gameState.bullets.length : Int) - gameState.currentBulletIndex)
          (HealthDisplay (myHealth gameState playerId) (opponentHealth gameState playerId))
          st.lastAction playerId
          (if isMyTurn gameState playerId then "Your Turn" else "Opponent\x27s Turn")
          (if isMyTurn gameState playerId then
            [ { label := "Shoot Myself", onClick := Handler.handleShoot "self" },
              { label := "Shoot Opponent", onClick := Handler.handleShoot "opponent" } ]
           else [])

/-! ## Strings -/

/-- The code points `String.prototype.trim` strips: ECMAScript WhiteSpace
(TAB, VT, FF, ZWNBSP and the space separators) and LineTerminator
(LF, CR, LS, PS). -/
def isWhiteSpace (c : Char) : Bool :=
  let n := c.toNat
  n == 0x09 || n == 0x0A || n == 0x0B || n == 0x0C || n == 0x0D || n == 0x20
    || n == 0xA0 || n == 0x1680 || (0x2000 ≤ n && n ≤ 0x200A)
    || n == 0x2028 || n == 0x2029 || n == 0x202F || n == 0x205F || n == 0x3000
    || n == 0xFEFF

/-- The method `String.prototype.trim`: white space is dropped at both ends. -/
def trim (s : String) : String :=
  String.mk ((s.data.dropWhile isWhiteSpace).reverse.dropWhile isWhiteSpace).reverse

/-- The method `String.prototype.toUpperCase` on Basic Latin: `a` to `z` become
`A` to `Z`, every other code point is kept. -/
def toUpperCase (s : String) : String :=
  String.mk (s.data.map Char.toUpper)

/-- Whether a string contains a character that is not white space. -/
def containsNonWhiteSpace (s : String) : Bool :=
  s.data.any fun c => !isWhiteSpace c

/-- How a promise returned by the hook settles: resolved with a truthy or a falsy
value, or rejected. -/
inductive Settled where
  | resolved (truthy : Bool)
  | rejected
  deriving DecidableEq, Repr

/-- A call of one of the three state setters. -/
inductive SetState where
  | setRoomInput (value : String)
  | setCurrentRoom (value : String)
  | setLastAction (value : Option Action)
  deriving DecidableEq, Repr

/-- The local state after one setter call. -/
def SetState.apply (st : Local) : SetState → Local
  | SetState.setRoomInput v => { st with roomInput := v }
  | SetState.setCurrentRoom v => { st with currentRoom := v }
  | SetState.setLastAction v => { st with lastAction := v }

/-- One run of an async handler: the hook calls it made, the setter calls it
made, what it logged, and whether its promise rejected (an exception escaped). -/
structure Run where
  calls : List HookCall
  writes : List SetState
  logged : List String
  threw : Bool
  deriving DecidableEq, Repr

/-- The local state once the setter calls of a run are applied. -/
def Run.final (r : Run) (st : Local) : Local :=
  r.writes.foldl SetState.apply st

/-- The handler `handleJoinRoom`, run on a local state; `joinRoom` says how the
hook's promise settles for the argument it is given. -/
def handleJoinRoom (joinRoom : String → Settled) (st : Local) : Run :=
  if trim st.roomInput = "" then
    { calls := [], writes := [], logged := [], threw := false }
  else
    match joinRoom (toUpperCase st.roomInput) with
    | Settled.resolved true =>
        { calls := [HookCall.joinRoom (toUpperCase st.roomInput)]
          writes := [SetState.setCurrentRoom (toUpperCase st.roomInput)]
          logged := []
          threw := false }
    | Settled.resolved false =>
        { calls := [HookCall.joinRoom (toUpperCase st.roomInput)]
          writes := []
          logged := ["Room not found or room is full!"]
          threw := false }
    | Settled.rejected =>
        { calls := [HookCall.joinRoom (toUpperCase st.roomInput)]
          writes := []
          logged := []
          threw := true }

/-- The handler `handleCreateRoom`; `createRoom` is the room id the hook's promise
resolves to (`none` when falsy). -/
def handleCreateRoom (createRoom : Option String) : Run :=
  match createRoom with
  | some roomId =>
      { calls := [HookCall.createRoom], writes := [SetState.setCurrentRoom roomId]
        logged := [], threw := false }
  | none =>
      { calls := [HookCall.createRoom], writes := [], logged := [], threw := false }

/-! ## The auto-hide effect -/

/-- The mounted component as the third effect sees it: the game state of the last
committed render, the identity of the hook's `hideBullets` in that render, the
pending timeout (milliseconds left) if there is one, and how many times the
timeout has called `hideBullets`. -/
structure Mounted where
  gameState : GameState
  hideBullets : Nat
  timer : Option Nat
  hideBulletsCalls : Nat
  deriving DecidableEq, Repr

/-- The body of the third effect: with the reveal condition set it schedules
`hideBullets` in 3000 ms (and returns the cleanup that clears that timeout);
otherwise it schedules nothing. -/
def autoHideEffect (gameState : GameState) : Option Nat :=
  if gameState.showBullets && gameState.bulletComposition.isSome then some 3000 else none

/-- What happens to a mounted component. -/
inductive Event where
  | update (gameState : GameState) (hideBullets : Nat)
  | elapse (ms : Nat)
  | unmount
  deriving DecidableEq, Repr

/-- The first render: every effect runs. -/
def mount (gameState : GameState) (hideBullets : Nat) : Mounted :=
  { gameState := gameState, hideBullets := hideBullets
    timer := autoHideEffect gameState, hideBulletsCalls := 0 }

/-- One event. A committed re-render runs the effect again only when one of its
dependencies `[gameState.showBullets, hideBullets]` differs from the previous
render: the previous cleanup clears the old timeout, then the body runs. Time
passing fires a due timeout. Unmounting runs the cleanup and ends the component
(`none`). -/
def step (m : Mounted) : Event → Option Mounted
  | Event.update gameState hideBullets =>
      if gameState.showBullets ≠ m.gameState.showBullets ∨ hideBullets ≠ m.hideBullets then
        some { m with gameState := gameState, hideBullets := hideBullets
                      timer := autoHideEffect gameState }
      else
        some { m with gameState := gameState, hideBullets := hideBullets }
  | Event.elapse ms =>
      match m.timer with
      | some left =>
          if left ≤ ms then
            some { m with timer := none, hideBulletsCalls := m.hideBulletsCalls + 1 }
          else some { m with timer := some (left - ms) }
      | none => some m
  | Event.unmount => none

/-- A sequence of events, from a mounted component. -/
def run (m : Mounted) : List Event → Option Mounted
  | [] => some m
  | e :: es =>
      match step m e with
      | some m1 => run m1 es
      | none => none

/-! ## Sample states -/

/-- A room with both players. -/
def sampleRoom : Room :=
  { room_id := JSId.str "AB12CD", player1_id := JSId.str "alice"
    player2_id := JSId.str "bob", last_action := none }

/-- A game in progress: Alice to play, two rocks of three left. -/
def sampleActive : GameState :=
  { room := some sampleRoom, gameStatus := "active"
    playerHealth := { player1 := 3, player2 := 2 }
    currentTurn := JSId.str "alice", showBullets := false
    bulletComposition := some { real := 1, fake := 2 }, roundNumber := 1
    bullets := [Bullet.fake, Bullet.real, Bullet.fake], currentBulletIndex := 1 }

/-- A finished game that Bob won. -/
def sampleFinished : GameState :=
  { sampleActive with gameStatus := "finished", playerHealth := { player1 := 0, player2 := 2 } }

/-- The local state of a player in room AB12CD. -/
def sampleLocal : Local :=
  { roomInput := "", currentRoom := "AB12CD", lastAction := none }

/-- A hook whose `joinRoom` finds room AB12CD only. -/
def sampleJoinRoom (roomId : String) : Settled :=
  Settled.resolved (decide (roomId = "AB12CD"))

/-- A game state before the reveal: nothing shown, no composition yet. -/
def revealStart : GameState :=
  { sampleActive with showBullets := false, bulletComposition := none }

/-- The flag `showBullets` is set while the composition is still missing. -/
def revealFlagOnly : GameState :=
  { revealStart with showBullets := true }

/-- The composition arrives while `showBullets` stays set. -/
def revealBoth : GameState :=
  { revealFlagOnly with bulletComposition := some { real := 1, fake := 2 } }

/-! ## Theorems: the health bar -/

/-- With no room the lobby is rendered. -/
theorem render_lobby (gs : GameState) (pid : JSId) (st : Local) (h : gs.room = none) :
    render gs pid st = View.lobby st.roomInput
      [ { label := "Create New Room", onClick := Handler.handleCreateRoom },
        { label := "Join Room", onClick := Handler.handleJoinRoom } ] := by
  simp [render, h]

/-- With a room and status `waiting` the waiting screen is rendered. -/
theorem render_waiting (gs : GameState) (pid : JSId) (st : Local) (r : Room)
    (h : gs.room = some r) (hw : gs.gameStatus = "waiting") :
    render gs pid st = View.waiting st.currentRoom := by
  simp [render, h, hw]

/-- With a room and status `finished` the game-over screen is rendered. -/
theorem render_finished (gs : GameState) (pid : JSId) (st : Local) (r : Room)
    (h : gs.room = some r) (hf : gs.gameStatus = "finished") :
    render gs pid st =
      View.gameOver (if iWon gs pid then "You Won!" else "You Lost!")
        (myHealth gs pid) (opponentHealth gs pid) gs.roundNumber
        [ { label := "Play Again", onClick := Handler.reloadPage } ] := by
  have hne : ¬ ("finished" = "waiting") := by decide
  simp [render, h, hf, hne]

/-- With a room, a status that is neither `waiting` nor `finished`, and the
reveal condition set, the bullet-reveal screen is rendered. -/
theorem render_reveal (gs : GameState) (pid : JSId) (st : Local) (r : Room)
    (h : gs.room = some r) (hw : gs.gameStatus ≠ "waiting") (hf : gs.gameStatus ≠ "finished")
    (hr : revealCondition gs = true) :
    ∃ c, gs.bulletComposition = some c ∧
      render gs pid st =
        View.bulletReveal
          (if gs.roundNumber > 1 then "Round " ++ toString gs.roundNumber ++ "!"
            else "Round Starting!")
          (decide (gs.roundNumber > 1)) c.real c.fake := by
  unfold revealCondition at hr
  cases hc : gs.bulletComposition with
  | none => simp [hc] at hr
  | some c =>
    have hs : gs.showBullets = true := by simpa [hc] using hr
    refine ⟨c, rfl, ?_⟩
    simp [render, h, hw, hf, hs, hc]

/-- With a room, a status that is neither `waiting` nor `finished`, and the
reveal condition unset, the active-play screen is rendered. -/
theorem render_game (gs : GameState) (pid : JSId) (st : Local) (r : Room)
    (h : gs.room = some r) (hw : gs.gameStatus ≠ "waiting") (hf : gs.gameStatus ≠ "finished")
    (hr : revealCondition gs = false) :
    render gs pid st =
      View.game st.currentRoom gs.roundNumber
        ((gs.bullets.length : Int) - gs.currentBulletIndex)
        (HealthDisplay (myHealth gs pid) (opponentHealth gs pid))
        st.lastAction pid
        (if isMyTurn gs pid then "Your Turn" else "Opponent\x27s Turn")
        (if isMyTurn gs pid then
          [ { label := "Shoot Myself", onClick := Handler.handleShoot "self" },
            { label := "Shoot Opponent", onClick := Handler.handleShoot "opponent" } ]
         else []) := by
  unfold revealCondition at hr
  cases hs : gs.showBullets with
  | false => simp [render, h, hw, hf, hs]
  | true =>
    cases hc : gs.bulletComposition with
    | none => simp [render, h, hw, hf, hs, hc]
    | some c => simp [hs, hc] at hr

/-- The screen rendered, by the priority of the early returns. -/
theorem render_screen (gs : GameState) (pid : JSId) (st : Local) :
    (render gs pid st).screen =
      if gs.room = none then Screen.lobby
      else if gs.gameStatus = "waiting" then Screen.waiting
      else if gs.gameStatus = "finished" then Screen.gameOver
      else if revealCondition gs = true then Screen.bulletReveal
      else Screen.activePlay := by
  cases hroom : gs.room with
  | none => simp [render_lobby gs pid st hroom, View.screen]
  | some r =>
    by_cases hw : gs.gameStatus = "waiting"
    · simp [render_waiting gs pid st r hroom hw, View.screen, hw]
    · by_cases hf : gs.gameStatus = "finished"
      · simp [render_finished gs pid st r hroom hf, View.screen, hf]
      · cases hr : revealCondition gs with
        | true =>
          obtain ⟨c, _, hv⟩ := render_reveal gs pid st r hroom hw hf hr
          simp [hv, View.screen, hw, hf]
        | false => simp [render_game gs pid st r hroom hw hf hr, View.screen, hw, hf]

/-- Each screen, by the condition on the game state under which it is rendered. -/
theorem render_screen_iff (gs : GameState) (pid : JSId) (st : Local) :
    ((render gs pid st).screen = Screen.lobby ↔ gs.room = none)
    ∧ ((render gs pid st).screen = Screen.waiting ↔
        gs.room ≠ none ∧ gs.gameStatus = "waiting")
    ∧ ((render gs pid st).screen = Screen.gameOver ↔
        gs.room ≠ none ∧ gs.gameStatus ≠ "waiting" ∧ gs.gameStatus = "finished")
    ∧ ((render gs pid st).screen = Screen.bulletReveal ↔
        gs.room ≠ none ∧ gs.gameStatus ≠ "waiting" ∧ gs.gameStatus ≠ "finished"
          ∧ (gs.showBullets = true ∧ gs.bulletComposition ≠ none))
    ∧ ((render gs pid st).screen = Screen.activePlay ↔
        gs.room ≠ none ∧ gs.gameStatus ≠ "waiting" ∧ gs.gameStatus ≠ "finished"
          ∧ ¬ (gs.showBullets = true ∧ gs.bulletComposition ≠ none)) := by
  have hrc : revealCondition gs = true ↔
      (gs.showBullets = true ∧ gs.bulletComposition ≠ none) := by
    unfold revealCondition
    cases gs.showBullets <;> cases gs.bulletComposition <;> simp
  rw [render_screen, ← hrc]
  by_cases h1 : gs.room = none <;> by_cases h2 : gs.gameStatus = "waiting" <;>
    by_cases h3 : gs.gameStatus = "finished" <;>
    by_cases h4 : revealCondition gs = true <;> simp [h1, h2, h3, h4]

/-- C9. Rendering is a total function of (gameState, playerId, local state) onto
one of five screens, chosen by fixed priority: lobby iff the room is absent;
otherwise waiting iff the status is `waiting`; otherwise game-over iff the status
is `finished`; otherwise bullet-reveal iff `showBullets` and `bulletComposition`
are both set; otherwise active-play. A pending reveal never hides the waiting or
the game-over screen, and without a room the lobby is shown whatever the status. -/
theorem render_priority (gs : GameState) (pid : JSId) (st : Local) :
    ((render gs pid st).screen = Screen.lobby ↔ gs.room = none)
    ∧ ((render gs pid st).screen = Screen.waiting ↔
        gs.room ≠ none ∧ gs.gameStatus = "waiting")
    ∧ ((render gs pid st).screen = Screen.gameOver ↔
        gs.room ≠ none ∧ gs.gameStatus ≠ "waiting" ∧ gs.gameStatus = "finished")
    ∧ ((render gs pid st).screen = Screen.bulletReveal ↔
        gs.room ≠ none ∧ gs.gameStatus ≠ "waiting" ∧ gs.gameStatus ≠ "finished"
          ∧ (gs.showBullets = true ∧ gs.bulletComposition ≠ none))
    ∧ ((render gs pid st).screen = Screen.activePlay ↔
        gs.room ≠ none ∧ gs.gameStatus ≠ "waiting" ∧ gs.gameStatus ≠ "finished"
          ∧ ¬ (gs.showBullets = true ∧ gs.bulletComposition ≠ none)) :=
  render_screen_iff gs pid st

/-- The shoot targets a rendered view can forward: both, on the active-play
screen when it is the viewer's turn; none otherwise. -/
theorem render_shootTargets (gs : GameState) (pid : JSId) (st : Local) :
    (render gs pid st).shootTargets =
      if (render gs pid st).screen = Screen.activePlay ∧ gs.currentTurn = pid
        then ["self", "opponent"] else [] := by
  rw [render_screen]
  cases hroom : gs.room with
  | none => simp [render_lobby gs pid st hroom, View.shootTargets, View.buttons,
      Handler.shootTargets]
  | some r =>
    by_cases hw : gs.gameStatus = "waiting"
    · simp [render_waiting gs pid st r hroom hw, View.shootTargets, View.buttons, hw]
    · by_cases hf : gs.gameStatus = "finished"
      · simp [render_finished gs pid st r hroom hf, View.shootTargets, View.buttons,
          Handler.shootTargets, hf]
      · cases hr : revealCondition gs with
        | true =>
          obtain ⟨c, _, hv⟩ := render_reveal gs pid st r hroom hw hf hr
          simp [hv, View.shootTargets, View.buttons, hw, hf]
        | false =>
          by_cases ht : gs.currentTurn = pid
          · simp [render_game gs pid st r hroom hw hf hr, View.shootTargets, View.buttons,
              Handler.shootTargets, handleShoot, isMyTurn, hw, hf, ht]
          · simp [render_game gs pid st r hroom hw hf hr, View.shootTargets, View.buttons,
              isMyTurn, hw, hf, ht]

/-- C2. For every game state and viewer, a shoot can be forwarded to the hook only
when `currentTurn` equals the viewer's `playerId`, and every forwarded target is
`self` or `opponent`; on the active-play screen the two shoot buttons are rendered
iff it is the viewer's turn. -/
theorem shoot_only_in_turn (gs : GameState) (pid : JSId) (st : Local) :
    (∀ t, t ∈ (render gs pid st).shootTargets →
        gs.currentTurn = pid ∧ (t = "self" ∨ t = "opponent"))
    ∧ ((render gs pid st).screen = Screen.activePlay →
        (((render gs pid st).buttons =
            [ { label := "Shoot Myself", onClick := Handler.handleShoot "self" },
              { label := "Shoot Opponent", onClick := Handler.handleShoot "opponent" } ]
          ↔ gs.currentTurn = pid)
        ∧ ((render gs pid st).buttons = [] ↔ gs.currentTurn ≠ pid))) := by
  constructor
  · intro t ht
    rw [render_shootTargets] at ht
    split at ht
    · rename_i h
      simp at ht
      exact ⟨h.2, ht⟩
    · simp at ht
  · intro hs
    have hp := (render_screen_iff gs pid st).2.2.2.2.1 hs
    obtain ⟨hroom, hw, hf, hr⟩ := hp
    cases hroom' : gs.room with
    | none => exact absurd hroom' hroom
    | some r =>
      have hrc : revealCondition gs = false := by
        unfold revealCondition
        cases h1 : gs.showBullets <;> cases h2 : gs.bulletComposition <;> simp_all
      rw [render_game gs pid st r hroom' hw hf hrc]
      by_cases ht : gs.currentTurn = pid <;> simp [View.buttons, isMyTurn, ht]

/-- C3. For every game state whose status is `waiting`, `active` or `finished`, a
shoot control is offered only when a room is present, the status is `active` and
the bullet-reveal screen is not displayed; the lobby, the waiting screen, the
game-over screen (whose only action is `Play Again`) and the bullet-reveal screen
forward no shoot. -/
theorem shoot_needs_active (gs : GameState) (pid : JSId) (st : Local)
    (hstatus : gs.gameStatus = "waiting" ∨ gs.gameStatus = "active"
      ∨ gs.gameStatus = "finished") :
    ((render gs pid st).shootTargets ≠ [] →
        gs.room ≠ none ∧ gs.gameStatus = "active"
          ∧ ¬ (gs.showBullets = true ∧ gs.bulletComposition ≠ none)
          ∧ (render gs pid st).screen ≠ Screen.bulletReveal)
    ∧ ((render gs pid st).screen ≠ Screen.activePlay →
        (render gs pid st).shootTargets = [])
    ∧ ((render gs pid st).screen = Screen.gameOver →
        (render gs pid st).buttons =
          [ { label := "Play Again", onClick := Handler.reloadPage } ]) := by
  refine ⟨?_, ?_, ?_⟩
  · intro hne
    rw [render_shootTargets] at hne
    split at hne
    · rename_i h
      obtain ⟨hroom, hw, hf, hr⟩ := (render_screen_iff gs pid st).2.2.2.2.1 h.1
      refine ⟨hroom, ?_, hr, ?_⟩
      · rcases hstatus with h1 | h1 | h1
        · exact absurd h1 hw
        · exact h1
        · exact absurd h1 hf
      · rw [h.1]; decide
    · exact absurd rfl hne
  · intro hs
    rw [render_shootTargets]
    simp [hs]
  · intro hs
    obtain ⟨hroom, _, hf⟩ := (render_screen_iff gs pid st).2.2.1.1 hs
    cases hroom' : gs.room with
    | none => exact absurd hroom' hroom
    | some r => rw [render_finished gs pid st r hroom' hf]; rfl

/-- C10. For every finished game state with a room, whatever the healths, and the
two viewers whose ids are the room's `player1_id` and `player2_id` (distinct):
exactly one of them reads `You Won!` and the other `You Lost!`, and what one reads
as `Your Health` the other reads as `Opponent Health`. -/
theorem gameOver_mirror (gs : GameState) (st1 st2 : Local) (r : Room)
    (hroom : gs.room = some r) (hfin : gs.gameStatus = "finished")
    (hdist : r.player1_id ≠ r.player2_id) :
    ∃ h1 h2 mine1 opp1 mine2 opp2 bs1 bs2,
      render gs r.player1_id st1 = View.gameOver h1 mine1 opp1 gs.roundNumber bs1
      ∧ render gs r.player2_id st2 = View.gameOver h2 mine2 opp2 gs.roundNumber bs2
      ∧ ((h1 = "You Won!" ∧ h2 = "You Lost!") ∨ (h1 = "You Lost!" ∧ h2 = "You Won!"))
      ∧ mine1 = opp2 ∧ opp1 = mine2 := by
  refine ⟨_, _, _, _, _, _, _, _, render_finished gs r.player1_id st1 r hroom hfin,
    render_finished gs r.player2_id st2 r hroom hfin, ?_, ?_, ?_⟩
  · have hne : ¬ (r.player2_id = r.player1_id) := fun h => hdist h.symm
    have h12 : ¬ ("Player 1" = "Player 2") := by decide
    have h21 : ¬ ("Player 2" = "Player 1") := by decide
    by_cases hh : gs.playerHealth.player1 ≤ 0
    · simp [iWon, winner, isPlayer1, hroom, player1IdOf, hne, hh, h12, h21]
    · simp [iWon, winner, isPlayer1, hroom, player1IdOf, hne, hh, h12, h21]
  · have hne : ¬ (r.player2_id = r.player1_id) := fun h => hdist h.symm
    simp [myHealth, opponentHealth, isPlayer1, hroom, player1IdOf, hne]
  · have hne : ¬ (r.player2_id = r.player1_id) := fun h => hdist h.symm
    simp [myHealth, opponentHealth, isPlayer1, hroom, player1IdOf, hne]

/-- C4. The order of the rounds never reaches the output: two game states that
differ only in the contents of `bullets` (same length, same index) render
identically for every viewer, and more generally the render depends on `bullets`
and `currentBulletIndex` only through `bullets.length - currentBulletIndex`
(the composition shown is `bulletComposition.real` and `.fake`). -/
theorem render_hides_order (gs : GameState) (pid : JSId) (st : Local) :
    (∀ bs : List Bullet, bs.length = gs.bullets.length →
        render { gs with bullets := bs } pid st = render gs pid st)
    ∧ (∀ (bs : List Bullet) (idx : Int),
        (bs.length : Int) - idx = (gs.bullets.length : Int) - gs.currentBulletIndex →
        render { gs with bullets := bs, currentBulletIndex := idx } pid st
          = render gs pid st) := by
  have key : ∀ (bs : List Bullet) (idx : Int),
      (bs.length : Int) - idx = (gs.bullets.length : Int) - gs.currentBulletIndex →
      render { gs with bullets := bs, currentBulletIndex := idx } pid st
        = render gs pid st := by
    intro bs idx h
    simp only [render, isMyTurn, myHealth, opponentHealth, isPlayer1, iWon, winner, h]
  refine ⟨?_, key⟩
  intro bs hlen
  have := key bs gs.currentBulletIndex (by rw [hlen])
  simpa using this

/-! ## Theorems: strings -/

/-- The check `!roomInput.trim()` succeeds exactly on the strings made of white
space only. -/
theorem trim_eq_empty_iff (s : String) :
    trim s = "" ↔ containsNonWhiteSpace s = false := by
  have hmk : ∀ l : List Char, (String.mk l = "") ↔ l = [] := by
    intro l
    constructor
    · intro h
      have := congrArg String.data h
      simpa using this
    · intro h
      rw [h]
  have hall : containsNonWhiteSpace s = false ↔ ∀ c ∈ s.data, isWhiteSpace c = true := by
    simp [containsNonWhiteSpace]
  rw [trim, hmk, hall, List.reverse_eq_nil_iff, List.dropWhile_eq_nil_iff]
  constructor
  · intro h
    by_contra hne
    have hnil : s.data.dropWhile isWhiteSpace ≠ [] := by
      intro h0
      exact hne (List.dropWhile_eq_nil_iff.1 h0)
    have hhead := List.head_dropWhile_not isWhiteSpace s.data hnil
    have hmem : (s.data.dropWhile isWhiteSpace).head hnil
        ∈ (s.data.dropWhile isWhiteSpace).reverse :=
      List.mem_reverse.2 (List.head_mem hnil)
    rw [h _ hmem] at hhead
    exact absurd hhead (by decide)
  · intro h c hc
    exact h c ((List.dropWhile_sublist isWhiteSpace).subset (List.mem_reverse.1 hc))

/-! ## Theorems: joining a room -/

/-- The run of `handleJoinRoom` on an input with a character that is not white
space, by how `joinRoom` settles. -/
theorem handleJoinRoom_nonBlank (joinRoom : String → Settled) (st : Local)
    (h : containsNonWhiteSpace st.roomInput = true) :
    handleJoinRoom joinRoom st =
      match joinRoom (toUpperCase st.roomInput) with
      | Settled.resolved true =>
          { calls := [HookCall.joinRoom (toUpperCase st.roomInput)]
            writes := [SetState.setCurrentRoom (toUpperCase st.roomInput)]
            logged := []
            threw := false }
      | Settled.resolved false =>
          { calls := [HookCall.joinRoom (toUpperCase st.roomInput)]
            writes := []
            logged := ["Room not found or room is full!"]
            threw := false }
      | Settled.rejected =>
          { calls := [HookCall.joinRoom (toUpperCase st.roomInput)]
            writes := []
            logged := []
            threw := true } := by
  have hne : ¬ (trim st.roomInput = "") := by
    rw [trim_eq_empty_iff, h]
    decide
  simp only [handleJoinRoom, hne, if_false]

/-- The run of `handleJoinRoom` on a blank input: nothing happens. -/
theorem handleJoinRoom_blank (joinRoom : String → Settled) (st : Local)
    (h : containsNonWhiteSpace st.roomInput = false) :
    handleJoinRoom joinRoom st =
      { calls := [], writes := [], logged := [], threw := false } := by
  have he : trim st.roomInput = "" := (trim_eq_empty_iff _).2 h
  simp only [handleJoinRoom, he, if_true]

/-- C6. A join that does not succeed mutates nothing: `handleJoinRoom` writes
`currentRoom` iff the input contains a non-white-space character and `joinRoom`
resolves to a truthy value, the value written being the upper-cased input (so the
value of `currentRoom` changes only then, and does change unless it already was
that value); on a blank input `joinRoom` is not called; when `joinRoom` reports
failure the call completes without an exception and `currentRoom`, `roomInput`
and `lastAction` are unchanged. -/
theorem handleJoinRoom_mutates_only_on_success (joinRoom : String → Settled) (st : Local) :
    ((handleJoinRoom joinRoom st).writes ≠ [] ↔
        (containsNonWhiteSpace st.roomInput = true
          ∧ joinRoom (toUpperCase st.roomInput) = Settled.resolved true))
    ∧ ((containsNonWhiteSpace st.roomInput = true
          ∧ joinRoom (toUpperCase st.roomInput) = Settled.resolved true) →
        (handleJoinRoom joinRoom st).writes
            = [SetState.setCurrentRoom (toUpperCase st.roomInput)]
        ∧ (handleJoinRoom joinRoom st).final st
            = { st with currentRoom := toUpperCase st.roomInput })
    ∧ (((handleJoinRoom joinRoom st).final st).currentRoom ≠ st.currentRoom →
        (containsNonWhiteSpace st.roomInput = true
          ∧ joinRoom (toUpperCase st.roomInput) = Settled.resolved true))
    ∧ (containsNonWhiteSpace st.roomInput = false →
        (handleJoinRoom joinRoom st).calls = []
        ∧ (handleJoinRoom joinRoom st).final st = st)
    ∧ ((containsNonWhiteSpace st.roomInput = true
          ∧ joinRoom (toUpperCase st.roomInput) = Settled.resolved false) →
        (handleJoinRoom joinRoom st).threw = false
        ∧ (handleJoinRoom joinRoom st).writes = []
        ∧ ((handleJoinRoom joinRoom st).final st).currentRoom = st.currentRoom
        ∧ ((handleJoinRoom joinRoom st).final st).roomInput = st.roomInput
        ∧ ((handleJoinRoom joinRoom st).final st).lastAction = st.lastAction)
    ∧ (¬ (containsNonWhiteSpace st.roomInput = true
          ∧ joinRoom (toUpperCase st.roomInput) = Settled.resolved true) →
        (handleJoinRoom joinRoom st).final st = st)
    ∧ (st.currentRoom ≠ toUpperCase st.roomInput →
        (((handleJoinRoom joinRoom st).final st).currentRoom ≠ st.currentRoom ↔
          (containsNonWhiteSpace st.roomInput = true
            ∧ joinRoom (toUpperCase st.roomInput) = Settled.resolved true))) := by
  cases hb : containsNonWhiteSpace st.roomInput with
  | false =>
    rw [handleJoinRoom_blank joinRoom st hb]
    simp [Run.final]
  | true =>
    rw [handleJoinRoom_nonBlank joinRoom st hb]
    cases hj : joinRoom (toUpperCase st.roomInput) with
    | resolved t =>
      cases t
      · simp [Run.final, SetState.apply]
      · simp only [Run.final, SetState.apply, List.foldl_cons, List.foldl_nil]
        refine ⟨by simp, by simp, by simp, by simp, by simp, by simp, ?_⟩
        intro hne
        simp only [and_self, iff_true]
        exact fun h => hne h.symm
    | rejected => simp [Run.final, SetState.apply]

/-- A failed join, run: the hook finds no room `ZZZZZZ`, the call completes, and
the local state is what it was. -/
theorem handleJoinRoom_failure_example :
    handleJoinRoom sampleJoinRoom { sampleLocal with roomInput := "zzzzzz" }
      = { calls := [HookCall.joinRoom "ZZZZZZ"], writes := []
          logged := ["Room not found or room is full!"], threw := false }
    ∧ handleJoinRoom sampleJoinRoom { sampleLocal with roomInput := " \t" }
      = { calls := [], writes := [], logged := [], threw := false } := by
  decide

/-! ## Theorems: the screens at sample states -/

/-- The statement of `gameOver_mirror` in the finished sample game. -/
theorem gameOver_mirror_witness :
    ∃ h1 h2 mine1 opp1 mine2 opp2 bs1 bs2,
      render sampleFinished sampleRoom.player1_id sampleLocal
        = View.gameOver h1 mine1 opp1 sampleFinished.roundNumber bs1
      ∧ render sampleFinished sampleRoom.player2_id sampleLocal
        = View.gameOver h2 mine2 opp2 sampleFinished.roundNumber bs2
      ∧ ((h1 = "You Won!" ∧ h2 = "You Lost!") ∨ (h1 = "You Lost!" ∧ h2 = "You Won!"))
      ∧ mine1 = opp2 ∧ opp1 = mine2 :=
  gameOver_mirror sampleFinished sampleLocal sampleLocal sampleRoom rfl rfl (by decide)

/-- The statement of `shoot_needs_active` at the active sample game, seen by
Alice, whose turn it is. -/
theorem shoot_needs_active_witness :
    ((render sampleActive (JSId.str "alice") sampleLocal).shootTargets ≠ [] →
        sampleActive.room ≠ none ∧ sampleActive.gameStatus = "active"
          ∧ ¬ (sampleActive.showBullets = true ∧ sampleActive.bulletComposition ≠ none)
          ∧ (render sampleActive (JSId.str "alice") sampleLocal).screen
              ≠ Screen.bulletReveal)
    ∧ (render sampleActive (JSId.str "alice") sampleLocal).shootTargets
        = ["self", "opponent"] :=
  ⟨(shoot_needs_active sampleActive (JSId.str "alice") sampleLocal
      (Or.inr (Or.inl rfl))).1, by decide⟩

/-- The five screens, each at a sample state: lobby without a room (whatever the
status), waiting and game-over with a reveal pending, the reveal, and play. -/
theorem render_examples :
    (render { sampleFinished with room := none } (JSId.str "alice") sampleLocal).screen
        = Screen.lobby
    ∧ (render { revealBoth with gameStatus := "waiting" } (JSId.str "alice")
        sampleLocal).screen = Screen.waiting
    ∧ (render { revealBoth with gameStatus := "finished" } (JSId.str "alice")
        sampleLocal).screen = Screen.gameOver
    ∧ render revealBoth (JSId.str "alice") sampleLocal
        = View.bulletReveal "Round Starting!" false 1 2
    ∧ (render sampleActive (JSId.str "bob") sampleLocal).buttons = []
    ∧ (render sampleActive (JSId.str "alice") sampleLocal).shootTargets
        = ["self", "opponent"]
    ∧ render sampleFinished (JSId.str "bob") sampleLocal
        = View.gameOver "You Won!" 2 0 1
            [ { label := "Play Again", onClick := Handler.reloadPage } ] := by
  decide

/-- The same bag in another order, and another bag with the same number of rocks
left: the view of the sample game is the same. -/
theorem render_shuffled_example :
    render { sampleActive with bullets := [Bullet.real, Bullet.fake, Bullet.fake] }
        (JSId.str "alice") sampleLocal
      = render sampleActive (JSId.str "alice") sampleLocal
    ∧ render { sampleActive with bullets := [Bullet.real, Bullet.real], currentBulletIndex := 0 }
        (JSId.str "bob") sampleLocal
      = render sampleActive (JSId.str "bob") sampleLocal :=
  ⟨rfl, rfl⟩

/-! ## Theorems: the auto-hide effect -/

/-- When a re-render changes `showBullets` and the reveal condition holds in it,
the effect runs again and the 3000 ms timeout is pending afterwards. -/
theorem autoHide_scheduled_on_flag_change (m : Mounted) (gs : GameState) (hb : Nat)
    (hflag : gs.showBullets ≠ m.gameState.showBullets)
    (hrev : revealCondition gs = true) :
    step m (Event.update gs hb)
      = some { m with gameState := gs, hideBullets := hb, timer := some 3000 } := by
  unfold revealCondition at hrev
  simp [step, hflag, autoHideEffect, hrev]

/-- When a re-render changes neither `showBullets` nor `hideBullets`, the effect
does not run again: the timeout, pending or not, is what it was. -/
theorem autoHide_kept_without_change (m : Mounted) (gs : GameState)
    (hflag : gs.showBullets = m.gameState.showBullets) :
    step m (Event.update gs m.hideBullets)
      = some { m with gameState := gs } := by
  simp [step, hflag]

/-- C7. The claim: whenever the reveal condition holds, a timeout that calls
`hideBullets` after 3000 ms is pending, in whatever order `showBullets` and
`bulletComposition` become set. The code, when the flag comes first: mounted with
nothing to reveal, the component receives `showBullets` while the composition is
missing and then the composition while `showBullets` stays set; the reveal
condition holds, the bullet-reveal screen is rendered, and no timeout is pending,
so `hideBullets` is not called however long one waits. In the other order
(composition first, flag second) the 3000 ms timeout is pending. -/
theorem autoHide_misses_late_composition :
    revealCondition revealBoth = true
    ∧ (render revealBoth (JSId.str "alice") sampleLocal).screen = Screen.bulletReveal
    ∧ run (mount revealStart 0)
        [Event.update revealFlagOnly 0, Event.update revealBoth 0]
      = some { gameState := revealBoth, hideBullets := 0, timer := none
               hideBulletsCalls := 0 }
    ∧ run (mount revealStart 0)
        [Event.update revealFlagOnly 0, Event.update revealBoth 0, Event.elapse 3000,
          Event.elapse 600000]
      = some { gameState := revealBoth, hideBullets := 0, timer := none
               hideBulletsCalls := 0 }
    ∧ run (mount revealStart 0)
        [Event.update { revealStart with bulletComposition := revealBoth.bulletComposition } 0,
          Event.update revealBoth 0]
      = some { gameState := revealBoth, hideBullets := 0, timer := some 3000
               hideBulletsCalls := 0 } := by
  decide

end Game
